import Mathlib

/-!
Shallow embedding of the turn-simulation core of the RustTcodTutorial roguelike:
the movement / collision resolver (roguelike_main/src/movement.rs), the momentum
and object model (roguelike_core/src/types.rs), and the turn stepper fragments of
roguelike_engine/src/game.rs that the claims concern.  Rust i32 values are
embedded as Int, usize as Nat, mutation as explicit state passing.  Modules of
the repository that are not under src/ (map.rs, constants.rs, the entity-store
helpers) are modelled from the specification and are marked as such.
-/

namespace Roguelike

/-- Grid coordinate pair, from `struct Position(pub i32, pub i32)` in types.rs. -/
structure Position where
  x : Int
  y : Int
deriving DecidableEq, Repr

/-- `Position::from_pair` in types.rs. -/
def Position.from_pair (pair : Int × Int) : Position :=
  { x := pair.1, y := pair.2 }

/-- `Position::into_pair` in types.rs. -/
def Position.into_pair (p : Position) : Int × Int :=
  (p.x, p.y)

/-- The nine-way move intent `enum MoveAction` in types.rs. -/
inductive MoveAction where
  | Left
  | Right
  | Up
  | Down
  | DownLeft
  | DownRight
  | UpLeft
  | UpRight
  | Center
deriving DecidableEq, Repr

/-- `MoveAction::into_move` in types.rs: the unit offset of each direction. -/
def MoveAction.into_move : MoveAction → Int × Int
  | .Left => (-1, 0)
  | .Right => (1, 0)
  | .Up => (0, -1)
  | .Down => (0, 1)
  | .DownLeft => (-1, 1)
  | .DownRight => (1, 1)
  | .UpLeft => (-1, -1)
  | .UpRight => (1, -1)
  | .Center => (0, 0)

/-- `enum Reach` in types.rs; the distance is a Rust usize. -/
inductive Reach where
  | Single (dist : Nat)
  | Diag (dist : Nat)
  | Horiz (dist : Nat)
deriving DecidableEq, Repr

/-- `Reach::move_with_reach` in types.rs: the offset an action yields under a reach,
none when the reach disallows the direction. -/
def Reach.move_with_reach : Reach → MoveAction → Option Position
  | .Single dist, move_action =>
    let d : Int := dist
    let neg_dist : Int := d * -1
    match move_action with
    | .Left => some (Position.from_pair (neg_dist, 0))
    | .Right => some (Position.from_pair (d, 0))
    | .Up => some (Position.from_pair (0, neg_dist))
    | .Down => some (Position.from_pair (0, d))
    | .DownLeft => some (Position.from_pair (neg_dist, d))
    | .DownRight => some (Position.from_pair (d, d))
    | .UpLeft => some (Position.from_pair (neg_dist, neg_dist))
    | .UpRight => some (Position.from_pair (d, neg_dist))
    | .Center => some (Position.from_pair (0, 0))
  | .Diag dist, move_action =>
    let d : Int := dist
    let neg_dist : Int := d * -1
    match move_action with
    | .Left => none
    | .Right => none
    | .Up => none
    | .Down => none
    | .DownLeft => some (Position.from_pair (neg_dist, d))
    | .DownRight => some (Position.from_pair (d, d))
    | .UpLeft => some (Position.from_pair (neg_dist, neg_dist))
    | .UpRight => some (Position.from_pair (d, neg_dist))
    | .Center => some (Position.from_pair (0, 0))
  | .Horiz dist, move_action =>
    let d : Int := dist
    let neg_dist : Int := d * -1
    match move_action with
    | .Left => some (Position.from_pair (neg_dist, 0))
    | .Right => some (Position.from_pair (d, 0))
    | .Up => some (Position.from_pair (0, neg_dist))
    | .Down => some (Position.from_pair (0, d))
    | .DownLeft => none
    | .DownRight => none
    | .UpLeft => none
    | .UpRight => none
    | .Center => none

/-- `Reach::offsets` in types.rs.  Single emits the eight offsets at exactly the
reach distance; Horiz and Diag loop `for dist in 1..dist` (the upper bound is
excluded, as in Rust) pushing four offsets per distance. -/
def Reach.offsets : Reach → List Position
  | .Single dist =>
    let d : Int := dist
    ([(0, d), (-d, d), (-d, 0), (-d, -d), (0, -d), (d, -d), (d, 0), (d, d)] :
      List (Int × Int)).map Position.from_pair
  | .Horiz dist =>
    ((List.range' 1 (dist - 1)).flatMap (fun k =>
      let d : Int := k
      ([(d, 0), (0, d), (-1 * d, 0), (0, -1 * d)] : List (Int × Int)))).map
      Position.from_pair
  | .Diag dist =>
    ((List.range' 1 (dist - 1)).flatMap (fun k =>
      let d : Int := k
      ([(d, d), (-1 * d, d), (d, -1 * d), (-1 * d, -1 * d)] : List (Int × Int)))).map
      Position.from_pair

/-- `enum Item` in types.rs. -/
inductive Item where
  | Stone
  | Goal
deriving DecidableEq, Repr

/-- `enum Ai` in types.rs. -/
inductive Ai where
  | Basic
deriving DecidableEq, Repr

/-- `enum Behavior` in types.rs. -/
inductive Behavior where
  | Idle
  | Investigating (pos : Position)
  | Attacking (id : Nat)
deriving DecidableEq, Repr

/-- `enum Animation` in types.rs. -/
inductive Animation where
  | Idle
deriving DecidableEq, Repr

/-- `enum DeathCallback` in types.rs. -/
inductive DeathCallback where
  | Player
  | Monster
deriving DecidableEq, Repr

/-- `struct Fighter` in types.rs. -/
structure Fighter where
  max_hp : Int
  hp : Int
  defense : Int
  power : Int
  on_death : DeathCallback
deriving DecidableEq, Repr

/-- `struct Momentum` in types.rs. -/
structure Momentum where
  mx : Int
  my : Int
  took_half_turn : Bool
  max : Int
deriving DecidableEq, Repr

/-- `impl Default for Momentum` in types.rs: zero momentum with max 2. -/
def Momentum.default : Momentum :=
  { mx := 0, my := 0, took_half_turn := false, max := 2 }

instance : Inhabited Momentum := ⟨Momentum.default⟩

/-- `num::clamp`, as used by `Momentum::moved`. -/
def clamp (input min_v max_v : Int) : Int :=
  if input < min_v then min_v else if input > max_v then max_v else input

/-- `Momentum::magnitude` in types.rs: the larger axis magnitude. -/
def Momentum.magnitude (m : Momentum) : Int :=
  if abs m.mx > abs m.my then abs m.mx else abs m.my

/-- `Momentum::moved` in types.rs: per-axis update after a move by (dx, dy).
An axis with nonzero momentum whose sign disagrees with the move component's
sign (Rust `signum`) is zeroed; otherwise it advances by the move component's
sign, clamped to [-max, max]. -/
def Momentum.moved (m : Momentum) (dx dy : Int) : Momentum :=
  { m with
    mx :=
      if m.mx ≠ 0 ∧ Int.sign dx ≠ Int.sign m.mx then 0
      else clamp (m.mx + Int.sign dx) (-m.max) m.max,
    my :=
      if m.my ≠ 0 ∧ Int.sign dy ≠ Int.sign m.my then 0
      else clamp (m.my + Int.sign dy) (-m.max) m.max }

/-- `Momentum::set_momentum` in types.rs. -/
def Momentum.set_momentum (m : Momentum) (mx my : Int) : Momentum :=
  { m with mx := mx, my := my }

/-- `Momentum::clear` in types.rs. -/
def Momentum.clear (m : Momentum) : Momentum :=
  { m with mx := 0, my := 0 }

/-- `enum PlayerAction` in types.rs. -/
inductive PlayerAction where
  | TookTurn
  | TookHalfTurn
  | DidntTakeTurn
  | Exit
deriving DecidableEq, Repr

/-- `enum Movement` in types.rs: a resolved movement outcome. -/
inductive Movement where
  | Move (x y : Int)
  | Attack (x y : Int) (target : Nat)
  | Collide (x y : Int)
  | WallKick (x y dir_x dir_y : Int)
  | JumpWall (x y : Int)
deriving DecidableEq, Repr

/-- `enum InputAction` in types.rs. -/
inductive InputAction where
  | Move (action : MoveAction)
  | Pickup
  | Inventory
  | Exit
  | ExploreAll
  | RegenerateMap
  | ToggleOverlays
  | GodMode
  | FullScreen
  | None
deriving DecidableEq, Repr

/-- `struct Object` in types.rs: an entity with optional attributes. -/
structure Object where
  x : Int
  y : Int
  char : Char
  name : String
  blocks : Bool
  alive : Bool
  fighter : Option Fighter
  ai : Option Ai
  behavior : Option Behavior
  item : Option Item
  momentum : Option Momentum
  movement : Option Reach
  attack : Option Reach
  animation : Option Animation
deriving DecidableEq, Repr

/-- `Object::new` in types.rs. -/
def Object.new (x y : Int) (chr : Char) (name : String) (blocks : Bool) : Object :=
  { x := x, y := y, char := chr, name := name, blocks := blocks, alive := false,
    fighter := none, ai := none, behavior := none, item := none, momentum := none,
    movement := none, attack := none, animation := none }

instance : Inhabited Object := ⟨Object.new 0 0 ' ' "" false⟩

/-- `Object::pos` in types.rs. -/
def Object.pos (o : Object) : Int × Int :=
  (o.x, o.y)

/-- `player_death` in types.rs: only the glyph changes. -/
def player_death (player : Object) : Object :=
  { player with char := '%' }

/-- `monster_death` in types.rs: glyph, blocking, fighter, ai and name change. -/
def monster_death (monster : Object) : Object :=
  { monster with
    char := '%',
    blocks := false,
    fighter := none,
    ai := none,
    name := "remains of " ++ monster.name }

/-- `DeathCallback::callback` in types.rs. -/
def DeathCallback.callback : DeathCallback → Object → Object
  | .Player => player_death
  | .Monster => monster_death

/-- `Object::take_damage` in types.rs: positive damage is subtracted from hp,
then a nonpositive hp clears the alive flag and runs the death callback. -/
def Object.take_damage (o : Object) (damage : Int) : Object :=
  let o1 :=
    match o.fighter with
    | some f => if damage > 0 then { o with fighter := some { f with hp := f.hp - damage } } else o
    | none => o
  match o1.fighter with
  | some f => if f.hp ≤ 0 then DeathCallback.callback f.on_death { o1 with alive := false } else o1
  | none => o1

/-- `Object::attack` in types.rs (renamed: `attack` is already the reach field).
Returns the updated target; the attacker is not mutated. -/
def Object.attack_target (attacker target : Object) : Object :=
  let damage :=
    (attacker.fighter.map (fun f => f.power)).getD 0 -
      (target.fighter.map (fun f => f.defense)).getD 0
  if damage > 0 then target.take_damage damage else target

/-- `Object::heal` in types.rs: hp grows by the amount, then is capped at max_hp;
without a fighter nothing happens. -/
def Object.heal (o : Object) (amount : Int) : Object :=
  match o.fighter with
  | some f =>
    let hp := f.hp + amount
    let hp := if hp > f.max_hp then f.max_hp else hp
    { o with fighter := some { f with hp := hp } }
  | none => o

/-! ## Map model.
roguelike_core's map.rs is not under src/; the pieces the movement resolver
consumes are modelled from the specification. -/

/-- Map tile.  check_collision (movement.rs) reads `map[(x, y)].blocked`;
further tile attributes are not consulted by the claims. -/
structure Tile where
  blocked : Bool
  block_sight : Bool
deriving DecidableEq, Repr

/-- Modelled from the spec: map.rs is not under src/.  Section 3 describes a
rectangular grid of tiles with per-side wall data; `is_blocked_by_wall`
("wall-side between the current and next tile in direction (dx,dy)") is kept as
abstract per-map data with the source method's signature. -/
structure Map where
  width : Int
  height : Int
  tiles : Int → Int → Tile
  is_blocked_by_wall : Int → Int → Int → Int → Bool

/-- Modelled from the spec: map.rs is not under src/.  A point is within bounds
of the rectangular width times height grid. -/
def Map.is_within_bounds (m : Map) (x y : Int) : Bool :=
  decide (0 ≤ x) && decide (x < m.width) && decide (0 ≤ y) && decide (y < m.height)

/-- Modelled from the spec: constants.rs is not under src/.  The maximum
momentum, matching `Momentum::default`'s max of 2. -/
def MAX_MOMENTUM : Int := 2

/-- Modelled from the spec: constants.rs is not under src/.  The player is the
first object in the object array (spec: exactly one entity has name Player). -/
def PLAYER : Nat := 0

/-- Modelled from the spec: the `is_blocked` helper of roguelike_main is not
under src/.  Section 3 and the collision probe of section 4.3: a tile blocks
when its tile data blocks movement or a blocks=true entity occupies it. -/
def is_blocked (map : Map) (x y : Int) (objects : List Object) : Bool :=
  (map.tiles x y).blocked ||
    objects.any (fun obj => obj.blocks && obj.x == x && obj.y == y)

/-! ## The tcod line iterator.
`tcod::line::Line` (an external dependency of movement.rs) wraps libtcod's
Bresenham walker TCOD_line_init_mt / TCOD_line_step_mt: iteration yields the
points strictly after the start, through the destination inclusive, stepping
the longer ("driving") axis by one each time.  Embedded from that algorithm
with fuel-based recursion. -/

/-- Bresenham stepping with the x axis driving (|Δx| > |Δy|). -/
def tcodStepX (fuel : Nat) (ox oy destx stepx stepy dx2 dy2 e : Int) :
    List (Int × Int) :=
  match fuel with
  | 0 => []
  | Nat.succ fuel =>
    if ox = destx then []
    else
      let ox := ox + stepx
      let e := e - stepy * dy2
      if e < 0 then
        let oy := oy + stepy
        let e := e + stepx * dx2
        (ox, oy) :: tcodStepX fuel ox oy destx stepx stepy dx2 dy2 e
      else
        (ox, oy) :: tcodStepX fuel ox oy destx stepx stepy dx2 dy2 e

/-- Bresenham stepping with the y axis driving (|Δy| ≥ |Δx|). -/
def tcodStepY (fuel : Nat) (ox oy desty stepx stepy dx2 dy2 e : Int) :
    List (Int × Int) :=
  match fuel with
  | 0 => []
  | Nat.succ fuel =>
    if oy = desty then []
    else
      let oy := oy + stepy
      let e := e - stepx * dx2
      if e < 0 then
        let ox := ox + stepx
        let e := e + stepy * dy2
        (ox, oy) :: tcodStepY fuel ox oy desty stepx stepy dx2 dy2 e
      else
        (ox, oy) :: tcodStepY fuel ox oy desty stepx stepy dx2 dy2 e

/-- `Line::new((x1, y1), (x2, y2))` iterated to a list. -/
def tcodLine (x1 y1 x2 y2 : Int) : List (Int × Int) :=
  let deltax := x2 - x1
  let deltay := y2 - y1
  let stepx := Int.sign deltax
  let stepy := Int.sign deltay
  let fuel := deltax.natAbs + deltay.natAbs + 1
  if stepx * deltax > stepy * deltay then
    tcodStepX fuel x1 y1 x2 stepx stepy (2 * deltax) (2 * deltay) (stepx * deltax)
  else
    tcodStepY fuel x1 y1 y2 stepx stepy (2 * deltax) (2 * deltay) (stepy * deltay)

/-! ## Movement resolver (roguelike_main/src/movement.rs). -/

/-- `enum Collision` in movement.rs. -/
inductive Collision where
  | NoCollision (x y : Int)
  | BlockedTile (tile last : Int × Int)
  | Wall (tile last : Int × Int)
  | Entity (id : Nat) (last : Int × Int)
deriving DecidableEq, Repr

/-- The `for (x_pos, y_pos) in move_line` loop of `check_collision`
(movement.rs): walks the line keeping the last clear position, breaking at the
first blocked tile, blocking entity, or wall side. -/
def check_collision_loop (map : Map) (objects : List Object) (dx dy : Int) :
    List (Int × Int) → Int × Int → Collision → Collision
  | [], _, result => result
  | p :: rest, last_pos, result =>
    if is_blocked map p.1 p.2 objects then
      if (map.tiles p.1 p.2).blocked then
        Collision.BlockedTile p last_pos
      else
        Collision.Entity (objects.findIdx fun obj => obj.x == p.1 && obj.y == p.2)
          last_pos
    else if map.is_blocked_by_wall p.1 p.2 dx dy then
      Collision.Wall (p.1 + dx, p.2 + dy) p
    else
      check_collision_loop map objects dx dy rest p result

/-- `check_collision` in movement.rs: classifies the move of the object by
(dx, dy), walking the tcod line from its position to the target.  Rust indexes
`objects[object_id]` (a panic out of range); here getD with the default object
stands in for the panic and is never exercised by the theorems. -/
def check_collision (object_id : Nat) (objects : List Object) (dx dy : Int)
    (map : Map) : Collision :=
  let x := (objects.getD object_id default).x
  let y := (objects.getD object_id default).y
  if !(map.is_within_bounds (x + dx) (y + dy)) then
    Collision.Wall (x, y) (x, y)
  else
    check_collision_loop map objects dx dy (tcodLine x y (x + dx) (y + dy)) (x, y)
      (Collision.NoCollision (x + dx) (y + dy))

/-- `calculate_move` in movement.rs: the movement decision per collision
outcome, with momentum deciding between a wall jump and stopping short. -/
def calculate_move (action : MoveAction) (reach : Reach) (object_id : Nat)
    (objects : List Object) (map : Map) : Option Movement :=
  let obj := objects.getD object_id default
  match reach.move_with_reach action with
  | some delta_pos =>
    let dx := delta_pos.into_pair.1
    let dy := delta_pos.into_pair.2
    match check_collision object_id objects dx dy map with
    | Collision.NoCollision new_x new_y => some (Movement.Move new_x new_y)
    | Collision.BlockedTile _ last => some (Movement.Move last.1 last.2)
    | Collision.Wall tile last =>
      match obj.momentum with
      | some momentum =>
        if momentum.magnitude == MAX_MOMENTUM && !(is_blocked map tile.1 tile.2 objects)
        then some (Movement.JumpWall tile.1 tile.2)
        else some (Movement.Move last.1 last.2)
      | none => some (Movement.Move (obj.x + dx) (obj.y + dy))
    | Collision.Entity other_object_id last =>
      some (Movement.Attack last.1 last.2 other_object_id)
  | none => none

/-- `player_move_or_attack` in movement.rs, on the object array as explicit
state.  Rust subtleties carried over faithfully: in the Move/JumpWall branch
the momentum is copied out of its Option before `moved` runs, so the half-turn
test reads the pre-move momentum; in the Collide and WallKick branches
`unwrap()` copies the momentum and `clear` / `set_momentum` mutate only the
copy, leaving the stored momentum unchanged. -/
def player_move_or_attack (move_action : MoveAction) (map : Map)
    (objects : List Object) : List Object × PlayerAction :=
  let player := objects.getD PLAYER default
  let reach := player.movement.getD (Reach.Single 1)
  match calculate_move move_action reach PLAYER objects map with
  | some (Movement.Attack new_x new_y target_id) =>
    let target := objects.getD target_id default
    let objects := objects.set target_id (player.attack_target target)
    let objects :=
      if (new_x, new_y) = ((objects.getD PLAYER default).x, (objects.getD PLAYER default).y) then
        let p := objects.getD PLAYER default
        objects.set PLAYER { p with momentum := p.momentum.map Momentum.clear }
      else objects
    let p := objects.getD PLAYER default
    (objects.set PLAYER { p with x := new_x, y := new_y }, PlayerAction.TookTurn)
  | some (Movement.Collide x y) =>
    (objects.set PLAYER { player with x := x, y := y }, PlayerAction.TookTurn)
  | some (Movement.Move x y) | some (Movement.JumpWall x y) =>
    let dx := x - player.x
    let dy := y - player.y
    let objects := objects.set PLAYER { player with x := x, y := y }
    let momentum := (objects.getD PLAYER default).momentum.getD default
    let p := objects.getD PLAYER default
    let objects :=
      objects.set PLAYER { p with momentum := p.momentum.map (fun m => m.moved dx dy) }
    let player_action :=
      if momentum.magnitude > 1 && !momentum.took_half_turn then
        PlayerAction.TookHalfTurn
      else PlayerAction.TookTurn
    let q := objects.getD PLAYER default
    let objects :=
      objects.set PLAYER
        { q with
          momentum := q.momentum.map (fun m =>
            { m with took_half_turn := player_action == PlayerAction.TookHalfTurn }) }
    (objects, player_action)
  | some (Movement.WallKick x y _dir_x _dir_y) =>
    (objects.set PLAYER { player with x := x, y := y }, PlayerAction.TookTurn)
  | none => (objects, PlayerAction.DidntTakeTurn)

/-! ## Spec-side formulations (for the refinement claims C1 and C2). -/

/-- A walked tile passes the collision probe when it holds neither a blocking
tile nor a blocking entity, and no wall side faces the move direction; the two
break conditions of check_collision's walk, as the spec words them. -/
def collisionClear (map : Map) (objects : List Object) (dx dy : Int)
    (p : Int × Int) : Bool :=
  !(is_blocked map p.1 p.2 objects) && !(map.is_blocked_by_wall p.1 p.2 dx dy)

/-- Claim C2's collision probe, as the spec words it: a target out of bounds is
a Wall at the origin; otherwise the first tile of the walked line that fails
the probe decides the outcome, with the last clear tile (initially the origin)
as the second component; BlockedTile for a blocking tile, Entity for a blocking
entity (the id is the first object found at the tile), Wall for a wall side,
where the Wall case reports the tile a full (dx, dy) beyond the current one and
the current (clear) tile itself; a fully clear line is NoCollision(target). -/
def check_collision_spec (object_id : Nat) (objects : List Object) (dx dy : Int)
    (map : Map) : Collision :=
  let x := (objects.getD object_id default).x
  let y := (objects.getD object_id default).y
  if !(map.is_within_bounds (x + dx) (y + dy)) then
    Collision.Wall (x, y) (x, y)
  else
    match (tcodLine x y (x + dx) (y + dy)).dropWhile (collisionClear map objects dx dy) with
    | [] => Collision.NoCollision (x + dx) (y + dy)
    | p :: _ =>
      let last_clear :=
        (((tcodLine x y (x + dx) (y + dy)).takeWhile
          (collisionClear map objects dx dy)).getLast?).getD (x, y)
      if is_blocked map p.1 p.2 objects then
        if (map.tiles p.1 p.2).blocked then
          Collision.BlockedTile p last_clear
        else
          Collision.Entity (objects.findIdx fun obj => obj.x == p.1 && obj.y == p.2)
            last_clear
      else Collision.Wall (p.1 + dx, p.2 + dy) p

/-- Claim C1's movement decision table, as the spec words it, applied to the
spec-side collision outcome: NoCollision moves to the target; BlockedTile moves
to the last clear tile; Wall jumps the wall when the momentum magnitude equals
MAX_MOMENTUM and the tile beyond is not blocked, otherwise moves to the last
clear tile, or to (x+dx, y+dy) when momentum is absent; Entity attacks; a
disallowed reach yields no movement. -/
def calculate_move_spec (action : MoveAction) (reach : Reach) (object_id : Nat)
    (objects : List Object) (map : Map) : Option Movement :=
  match reach.move_with_reach action with
  | none => none
  | some delta_pos =>
    let dx := delta_pos.x
    let dy := delta_pos.y
    let obj := objects.getD object_id default
    match check_collision_spec object_id objects dx dy map with
    | Collision.NoCollision new_x new_y => some (Movement.Move new_x new_y)
    | Collision.BlockedTile _ last => some (Movement.Move last.1 last.2)
    | Collision.Wall tile last =>
      match obj.momentum with
      | some momentum =>
        if momentum.magnitude = MAX_MOMENTUM ∧ is_blocked map tile.1 tile.2 objects = false
        then some (Movement.JumpWall tile.1 tile.2)
        else some (Movement.Move last.1 last.2)
      | none => some (Movement.Move (obj.x + dx) (obj.y + dy))
    | Collision.Entity other last => some (Movement.Attack last.1 last.2 other)

/-! ## Momentum reachability (claim C5). -/

/-- The WallKick branch of player_move_or_attack (movement.rs lines 187-194)
copies the stored momentum out of its Option (`unwrap`) and calls
`set_momentum` on the copy, so the entity's stored momentum is unchanged. -/
def wall_kick_momentum (m : Momentum) (dir_x dir_y : Int) : Momentum :=
  let _copy := m.set_momentum dir_x dir_y
  m

/-- Momentum values reachable from the default by the operations the movement
code performs on a stored momentum: `moved` after a successful move, `clear`,
and the wall-kick invocation of `set_momentum`. -/
inductive MomentumReachable : Momentum → Prop where
  | init : MomentumReachable Momentum.default
  | moved (m : Momentum) (dx dy : Int) :
      MomentumReachable m → MomentumReachable (m.moved dx dy)
  | cleared (m : Momentum) :
      MomentumReachable m → MomentumReachable m.clear
  | wall_kick (m : Momentum) (dir_x dir_y : Int) :
      MomentumReachable m → MomentumReachable (wall_kick_momentum m dir_x dir_y)

/-! ## Dead-fighter cleanup (claim C6). -/

/-- The dead-fighter check of step_logic (roguelike_engine/src/game.rs lines
423-429), stated on the Object record: an entity whose fighter hp is ≤ 0 gets
alive = false, blocks = false, the death glyph, and its fighter removed. -/
def dead_fighter_cleanup (o : Object) : Object :=
  match o.fighter with
  | some f =>
    if f.hp ≤ 0 then
      { o with alive := false, blocks := false, char := '%', fighter := none }
    else o
  | none => o

/-- step_logic runs the dead-fighter check only for the entities it collected
into ai_id (ai attribute present, alive, not in limbo, fighter present); for an
entity without the ai attribute the turn performs no dead-fighter cleanup. -/
def turn_cleanup (o : Object) : Object :=
  if o.ai.isSome then dead_fighter_cleanup o else o

/-! ## Turn counting (claim C7). -/

/-- Modelled from the spec: the Action type of roguelike_core/movement.rs is
not under src/.  Section 4.6 classifies a player action as a full turn, a half
turn, or no turn. -/
inductive ActionClass where
  | FullTurn
  | HalfTurn
  | NoTurn
deriving DecidableEq, Repr

/-- Modelled from the spec: `Action::takes_turn` is not under src/; per section
4.6 only a full-turn action takes a turn (half-turn actions do not increment
the turn count nor trigger AI planning). -/
def ActionClass.takes_turn : ActionClass → Bool
  | .FullTurn => true
  | _ => false

/-- The turn-count update of step_logic (roguelike_engine/src/game.rs lines
485-487): the count increments exactly when the player action takes a turn. -/
def step_logic_turn_count (turn_count : Nat) (player_action : ActionClass) : Nat :=
  if player_action.takes_turn then turn_count + 1 else turn_count

/-! ## The Win-state stepper (claim C9). -/

/-- Game states dispatched by `Game::step_game` in roguelike_engine/src/game.rs. -/
inductive GameState where
  | Playing
  | Win
  | Lose
  | Inventory
  | Selection
  | SkillMenu
  | ClassMenu
  | ConfirmQuit
deriving DecidableEq, Repr

/-- `enum GameResult` in roguelike_engine/src/game.rs. -/
inductive GameResult where
  | Continue
  | Stop
deriving DecidableEq, Repr

/-- Of the Msg enum (messaging.rs) only the variant step_win emits is needed. -/
inductive Msg where
  | ChangeLevel
deriving DecidableEq, Repr

/-- Modelled from the spec: the entity store (Entities) of the engine version
is not under src/.  The state step_win reads and writes: the pending input, the
game state, the level number, the player's inventory (entity ids in order), the
item kind of each entity, and the message log.  The map rebuilt by make_map is
an external collaborator and is not modelled. -/
structure WinState where
  input_action : InputAction
  state : GameState
  level_num : Nat
  inventory : List Nat
  item_kind : Nat → Option Item
  msg_log : List Msg

/-- Modelled from the spec (section 4.1): `is_in_inventory(holder, Item)`
searches the holder's inventory for an item entity of the given kind. -/
def is_in_inventory (s : WinState) (item : Item) : Option Nat :=
  s.inventory.find? (fun id => s.item_kind id == some item)

/-- `Game::step_win` in roguelike_engine/src/game.rs: Exit stops; otherwise a
ChangeLevel message is logged, then the goal item is looked up with
`.expect("Won level without goal!")` - a panic, embedded as Except.error - and
on success it is removed from the inventory, the state returns to Playing, the
level number increments, make_map rebuilds the map, and the game continues. -/
def step_win (s : WinState) : Except String (WinState × GameResult) :=
  if s.input_action = InputAction.Exit then Except.ok (s, GameResult.Stop)
  else
    let s := { s with msg_log := s.msg_log ++ [Msg.ChangeLevel] }
    match is_in_inventory s Item.Goal with
    | none => Except.error "Won level without goal!"
    | some key_id =>
      let s := { s with inventory := s.inventory.erase key_id }
      let s := { s with state := GameState.Playing }
      let s := { s with level_num := s.level_num + 1 }
      Except.ok (s, GameResult.Continue)

/-! ## Helper lemmas. -/

/-- Prepending to a list shifts the default of its optional last element. -/
theorem getLastD_cons {α : Type} (a d : α) (l : List α) :
    ((a :: l).getLast?).getD d = (l.getLast?).getD a := by
  induction l generalizing a d with
  | nil => rfl
  | cons b t ih => rw [List.getLast?_cons_cons, ih b d, ih b a]

/-- The collision walk, characterised by the split of the line at its first
tile that fails the probe. -/
theorem check_collision_loop_eq (map : Map) (objects : List Object) (dx dy : Int)
    (L : List (Int × Int)) :
    ∀ (last : Int × Int) (t : Collision),
    check_collision_loop map objects dx dy L last t =
      match L.dropWhile (collisionClear map objects dx dy) with
      | [] => t
      | p :: _ =>
        if is_blocked map p.1 p.2 objects then
          if (map.tiles p.1 p.2).blocked then
            Collision.BlockedTile p
              (((L.takeWhile (collisionClear map objects dx dy)).getLast?).getD last)
          else
            Collision.Entity (objects.findIdx fun obj => obj.x == p.1 && obj.y == p.2)
              (((L.takeWhile (collisionClear map objects dx dy)).getLast?).getD last)
        else Collision.Wall (p.1 + dx, p.2 + dy) p := by
  induction L with
  | nil => intro last t; rfl
  | cons p rest ih =>
    intro last t
    by_cases hib : is_blocked map p.1 p.2 objects
    · have hc : collisionClear map objects dx dy p = false := by
        simp [collisionClear, hib]
      rw [List.dropWhile_cons_of_neg (by simp [hc]), List.takeWhile_cons_of_neg (by simp [hc])]
      simp [check_collision_loop, hib]
    · by_cases hw : map.is_blocked_by_wall p.1 p.2 dx dy
      · have hc : collisionClear map objects dx dy p = false := by
          simp [collisionClear, hib, hw]
        rw [List.dropWhile_cons_of_neg (by simp [hc]), List.takeWhile_cons_of_neg (by simp [hc])]
        simp [check_collision_loop, hib, hw]
      · have hc : collisionClear map objects dx dy p = true := by
          simp [collisionClear, hib, hw]
        have hloop : check_collision_loop map objects dx dy (p :: rest) last t =
            check_collision_loop map objects dx dy rest p t := by
          simp [check_collision_loop, hib, hw]
        rw [hloop, ih p t, List.dropWhile_cons_of_pos hc, List.takeWhile_cons_of_pos hc]
        cases hdrop : rest.dropWhile (collisionClear map objects dx dy) with
        | nil => rfl
        | cons q tail => simp only [getLastD_cons]

/-- check_collision agrees with the spec-side probe on every input. -/
theorem check_collision_eq_spec (object_id : Nat) (objects : List Object)
    (dx dy : Int) (map : Map) :
    check_collision object_id objects dx dy map =
      check_collision_spec object_id objects dx dy map := by
  unfold check_collision check_collision_spec
  by_cases hb :
      map.is_within_bounds ((objects.getD object_id default).x + dx)
        ((objects.getD object_id default).y + dy)
  · simp only [hb, Bool.not_true, Bool.false_eq_true, if_false]
    exact check_collision_loop_eq map objects dx dy _ _ _
  · simp only [Bool.not_eq_true] at hb
    simp only [hb, Bool.not_false, if_true]

/-! ## Claim theorems. -/

/-- Claim C2: for every starting position, offset (dx, dy), object array, and
map, check_collision classifies the walked line tile-by-tile as the spec
states: an out-of-bounds target yields Wall at the origin; the first walked
tile that is blocked yields BlockedTile(tile, last_clear); the first tile
occupied by a blocking entity yields Entity(other_id, last_clear); the first
wall side in direction (dx, dy) yields Wall(next_tile, last_clear); and a fully
clear line yields NoCollision(x+dx, y+dy).  Stated as agreement with the
spec-side probe check_collision_spec on every input. -/
theorem C2_check_collision_matches_probe (object_id : Nat) (objects : List Object)
    (dx dy : Int) (map : Map) :
    check_collision object_id objects dx dy map =
      check_collision_spec object_id objects dx dy map :=
  check_collision_eq_spec object_id objects dx dy map

/-- Claim C1: for every entity with a movement reach, intended move action,
object array, and map, calculate_move returns the movement given by the
decision table applied to the collision outcome: NoCollision moves to it;
BlockedTile moves to the last clear tile; Wall jumps the wall exactly at
maximum momentum magnitude with a free tile beyond, otherwise moves to the
last clear tile, or to (x+dx, y+dy) without momentum; Entity attacks; a
disallowed reach yields no movement.  Stated as agreement with the spec-side
decision table calculate_move_spec on every input. -/
theorem C1_calculate_move_matches_decision_table (action : MoveAction)
    (reach : Reach) (object_id : Nat) (objects : List Object) (map : Map) :
    calculate_move action reach object_id objects map =
      calculate_move_spec action reach object_id objects map := by
  unfold calculate_move calculate_move_spec
  cases hmw : reach.move_with_reach action with
  | none => rfl
  | some delta =>
    dsimp only [Position.into_pair]
    rw [check_collision_eq_spec]
    cases hcc : check_collision_spec object_id objects delta.x delta.y map with
    | NoCollision nx ny => rfl
    | BlockedTile tile last => rfl
    | Wall tile last =>
      cases hm : (objects.getD object_id default).momentum with
      | none => rfl
      | some momentum =>
        by_cases hmag : momentum.magnitude = MAX_MOMENTUM <;>
          by_cases hblk : is_blocked map tile.1 tile.2 objects <;>
            simp [hmag, hblk]
    | Entity other last => rfl

/-- Claim C3: for every momentum state and move offset (dx, dy),
Momentum.moved updates each axis independently: an axis is zeroed exactly when
it is nonzero and the move component's sign differs from its sign, and is
otherwise advanced by the move component's sign, clamped to [-max, max]; the
half-turn flag and the bound are untouched. -/
theorem C3_momentum_moved_axes (m : Momentum) (dx dy : Int) :
    ((m.mx ≠ 0 ∧ Int.sign dx ≠ Int.sign m.mx) → (m.moved dx dy).mx = 0)
  ∧ (¬(m.mx ≠ 0 ∧ Int.sign dx ≠ Int.sign m.mx) →
      (m.moved dx dy).mx = clamp (m.mx + Int.sign dx) (-m.max) m.max)
  ∧ ((m.my ≠ 0 ∧ Int.sign dy ≠ Int.sign m.my) → (m.moved dx dy).my = 0)
  ∧ (¬(m.my ≠ 0 ∧ Int.sign dy ≠ Int.sign m.my) →
      (m.moved dx dy).my = clamp (m.my + Int.sign dy) (-m.max) m.max)
  ∧ (m.moved dx dy).took_half_turn = m.took_half_turn
  ∧ (m.moved dx dy).max = m.max := by
  refine ⟨fun h => ?_, fun h => ?_, fun h => ?_, fun h => ?_, rfl, rfl⟩
  · simp only [Momentum.moved]; rw [if_pos h]
  · simp only [Momentum.moved]; rw [if_neg h]
  · simp only [Momentum.moved]; rw [if_pos h]
  · simp only [Momentum.moved]; rw [if_neg h]

/-- Witness for C3 at a concrete momentum: moving left against momentum (1, 0)
zeroes the x axis while the y axis advances by the move's sign. -/
theorem C3_momentum_moved_axes_witness :
    (({ mx := 1, my := 0, took_half_turn := false, max := 2 } : Momentum).moved (-1) 1).mx = 0
  ∧ (({ mx := 1, my := 0, took_half_turn := false, max := 2 } : Momentum).moved (-1) 1).my =
      clamp (0 + Int.sign 1) (-2) 2 := by
  have h := C3_momentum_moved_axes { mx := 1, my := 0, took_half_turn := false, max := 2 } (-1) 1
  exact ⟨h.1 (by decide), h.2.2.2.1 (by decide)⟩

/-- Clamping into a nonempty interval lands in the interval. -/
theorem clamp_mem (v lo hi : Int) (h : lo ≤ hi) :
    lo ≤ clamp v lo hi ∧ clamp v lo hi ≤ hi := by
  unfold clamp
  by_cases h1 : v < lo
  · rw [if_pos h1]; omega
  · rw [if_neg h1]
    by_cases h2 : v > hi
    · rw [if_pos h2]; omega
    · rw [if_neg h2]; omega

/-- Strengthened invariant for reachable momenta: the bound is nonnegative and
both axes stay within it. -/
theorem momentum_reachable_invariant (m : Momentum) (h : MomentumReachable m) :
    0 ≤ m.max ∧ |m.mx| ≤ m.max ∧ |m.my| ≤ m.max := by
  induction h with
  | init => refine ⟨by norm_num [Momentum.default], by norm_num [Momentum.default],
      by norm_num [Momentum.default]⟩
  | moved m dx dy _ ih =>
    obtain ⟨hmax, hx, hy⟩ := ih
    refine ⟨hmax, ?_, ?_⟩
    · simp only [Momentum.moved]
      by_cases hc : m.mx ≠ 0 ∧ Int.sign dx ≠ Int.sign m.mx
      · rw [if_pos hc]; simpa using hmax
      · rw [if_neg hc]
        have hcl := clamp_mem (m.mx + Int.sign dx) (-m.max) m.max (by omega)
        rw [abs_le]; exact ⟨hcl.1, hcl.2⟩
    · simp only [Momentum.moved]
      by_cases hc : m.my ≠ 0 ∧ Int.sign dy ≠ Int.sign m.my
      · rw [if_pos hc]; simpa using hmax
      · rw [if_neg hc]
        have hcl := clamp_mem (m.my + Int.sign dy) (-m.max) m.max (by omega)
        rw [abs_le]; exact ⟨hcl.1, hcl.2⟩
  | cleared m _ ih =>
    obtain ⟨hmax, _, _⟩ := ih
    exact ⟨hmax, by simpa [Momentum.clear] using hmax, by simpa [Momentum.clear] using hmax⟩
  | wall_kick m dir_x dir_y _ ih => simpa [wall_kick_momentum] using ih

/-- Claim C5: every momentum value reachable from the default by the momentum
operations the movement code performs on stored momenta (moved, clear, and
set_momentum as invoked for wall-kicks) satisfies |mx| ≤ max and |my| ≤ max. -/
theorem C5_momentum_bounded (m : Momentum) (h : MomentumReachable m) :
    |m.mx| ≤ m.max ∧ |m.my| ≤ m.max :=
  ⟨(momentum_reachable_invariant m h).2.1, (momentum_reachable_invariant m h).2.2⟩

/-- Witness for C5 at a concrete reachable momentum: one step right from the
default. -/
theorem C5_momentum_bounded_witness :
    |((Momentum.default.moved 1 0).mx)| ≤ (Momentum.default.moved 1 0).max
  ∧ |((Momentum.default.moved 1 0).my)| ≤ (Momentum.default.moved 1 0).max :=
  C5_momentum_bounded _ (MomentumReachable.moved _ 1 0 MomentumReachable.init)

/-- Claim C7: step_logic's turn count update never decreases the count, and
increments it by exactly one if and only if the player action takes a full
turn; a half-turn action leaves the count unchanged. -/
theorem C7_turn_count_step (tc : Nat) (a : ActionClass) :
    tc ≤ step_logic_turn_count tc a
  ∧ (step_logic_turn_count tc a = tc + 1 ↔ a = ActionClass.FullTurn)
  ∧ (a = ActionClass.HalfTurn → step_logic_turn_count tc a = tc) := by
  cases a <;> simp [step_logic_turn_count, ActionClass.takes_turn]

/-- Witness for C7 at a concrete count and a half-turn action. -/
theorem C7_turn_count_step_witness :
    step_logic_turn_count 5 ActionClass.HalfTurn = 5
  ∧ 5 ≤ step_logic_turn_count 5 ActionClass.HalfTurn := by
  have h := C7_turn_count_step 5 ActionClass.HalfTurn
  exact ⟨h.2.2 rfl, h.1⟩

/-- Claim C10: for every object and non-negative heal amount, heal leaves hp
no greater than max_hp: with a fighter, hp grows by the amount and is capped at
max_hp (that is, becomes min (hp + amount) max_hp, which is at most max_hp);
without a fighter the object is unchanged. -/
theorem C10_heal_capped (o : Object) (amount : Int) (_h : 0 ≤ amount) :
    (o.fighter = none → o.heal amount = o)
  ∧ ∀ f : Fighter, o.fighter = some f →
      (o.heal amount).fighter = some { f with hp := min (f.hp + amount) f.max_hp }
    ∧ min (f.hp + amount) f.max_hp ≤ f.max_hp := by
  constructor
  · intro hf; simp [Object.heal, hf]
  · intro f hf
    refine ⟨?_, min_le_right _ _⟩
    simp only [Object.heal, hf]
    by_cases hcap : f.hp + amount > f.max_hp
    · rw [if_pos hcap]
      have : f.max_hp = min (f.hp + amount) f.max_hp := by omega
      rw [← this]
    · rw [if_neg hcap]
      have : f.hp + amount = min (f.hp + amount) f.max_hp := by omega
      rw [← this]

/-- Fixture for the C10 witness. -/
def c10Fighter : Fighter :=
  { max_hp := 10, hp := 8, defense := 0, power := 1, on_death := DeathCallback.Monster }

/-- Fixture for the C10 witness. -/
def c10Obj : Object :=
  { Object.new 1 1 'o' "healer" false with fighter := some c10Fighter }

/-- Witness for C10 at a concrete object: healing 5 from 8/10 caps at 10. -/
theorem C10_heal_capped_witness :
    (c10Obj.heal 5).fighter = some { c10Fighter with hp := min (c10Fighter.hp + 5) c10Fighter.max_hp }
  ∧ min (c10Fighter.hp + 5) c10Fighter.max_hp ≤ c10Fighter.max_hp :=
  (C10_heal_capped c10Obj 5 (by decide)).2 c10Fighter rfl

/-- Fixture for C6: a player-death fighter at 1 hp. -/
def c6Fighter : Fighter :=
  { max_hp := 10, hp := 1, defense := 0, power := 0, on_death := DeathCallback.Player }

/-- Fixture for C6: a blocking, alive player object without the ai attribute. -/
def c6Player : Object :=
  { Object.new 0 0 '@' "player" true with alive := true, fighter := some c6Fighter }

/-- Counterexample to C6 as stated: after taking lethal damage and the turn's
dead-fighter cleanup (which skips entities without the ai attribute), the
player object still has a fighter with hp ≤ 0 and alive = false, but its
blocks flag is still true - player_death changes only the glyph. -/
theorem C6_counterexample :
    (turn_cleanup (c6Player.take_damage 5)).fighter = some { c6Fighter with hp := -4 }
  ∧ ({ c6Fighter with hp := (-4 : Int) } : Fighter).hp ≤ 0
  ∧ (turn_cleanup (c6Player.take_damage 5)).alive = false
  ∧ (turn_cleanup (c6Player.take_damage 5)).blocks = true := by decide

/-- Claim C6 as amended: after damage resolution, an entity whose fighter hp
dropped to ≤ 0 has alive = false; a monster-death entity additionally has
blocks = false and its fighter attribute removed, while a player-death entity
keeps its blocks flag and its fighter; the turn's dead-fighter cleanup (which
step_logic runs over AI entities only) forces alive = false, blocks = false and
removes the fighter of any entity it processes whose fighter hp is ≤ 0. -/
theorem C6_amended (o : Object) (f : Fighter) (damage : Int)
    (hf : o.fighter = some f) :
    ((if damage > 0 then f.hp - damage else f.hp) ≤ 0 →
       (o.take_damage damage).alive = false
     ∧ (f.on_death = DeathCallback.Monster →
          (o.take_damage damage).blocks = false ∧ (o.take_damage damage).fighter = none)
     ∧ (f.on_death = DeathCallback.Player →
          (o.take_damage damage).blocks = o.blocks
        ∧ (o.take_damage damage).fighter =
            some { f with hp := if damage > 0 then f.hp - damage else f.hp }))
  ∧ ∀ (o2 : Object) (f2 : Fighter), o2.fighter = some f2 → f2.hp ≤ 0 →
      (dead_fighter_cleanup o2).alive = false
    ∧ (dead_fighter_cleanup o2).blocks = false
    ∧ (dead_fighter_cleanup o2).fighter = none := by
  constructor
  · intro hhp
    obtain ⟨fmax, fhp, fdef, fpow, fod⟩ := f
    by_cases hd : damage > 0
    · rw [if_pos hd] at hhp
      cases fod with
      | Player =>
        refine ⟨?_, fun hmon => by simp at hmon, fun _ => ⟨?_, ?_⟩⟩
        · simp [Object.take_damage, hf, hd, hhp, DeathCallback.callback, player_death]
        · simp [Object.take_damage, hf, hd, hhp, DeathCallback.callback, player_death]
        · simp [Object.take_damage, hf, hd, hhp, DeathCallback.callback, player_death]
      | Monster =>
        refine ⟨?_, fun _ => ⟨?_, ?_⟩, fun hpl => by simp at hpl⟩
        · simp [Object.take_damage, hf, hd, hhp, DeathCallback.callback, monster_death]
        · simp [Object.take_damage, hf, hd, hhp, DeathCallback.callback, monster_death]
        · simp [Object.take_damage, hf, hd, hhp, DeathCallback.callback, monster_death]
    · rw [if_neg hd] at hhp
      cases fod with
      | Player =>
        refine ⟨?_, fun hmon => by simp at hmon, fun _ => ⟨?_, ?_⟩⟩
        · simp [Object.take_damage, hf, hd, hhp, DeathCallback.callback, player_death]
        · simp [Object.take_damage, hf, hd, hhp, DeathCallback.callback, player_death]
        · simp [Object.take_damage, hf, hd, hhp, DeathCallback.callback, player_death]
      | Monster =>
        refine ⟨?_, fun _ => ⟨?_, ?_⟩, fun hpl => by simp at hpl⟩
        · simp [Object.take_damage, hf, hd, hhp, DeathCallback.callback, monster_death]
        · simp [Object.take_damage, hf, hd, hhp, DeathCallback.callback, monster_death]
        · simp [Object.take_damage, hf, hd, hhp, DeathCallback.callback, monster_death]
  · intro o2 f2 hf2 hhp2
    refine ⟨?_, ?_, ?_⟩ <;> simp [dead_fighter_cleanup, hf2, hhp2]

/-- Fixture for the C6 witness: a monster-death fighter at 1 hp. -/
def c6GolFighter : Fighter :=
  { max_hp := 10, hp := 1, defense := 0, power := 0, on_death := DeathCallback.Monster }

/-- Fixture for the C6 witness: a blocking, alive AI monster. -/
def c6Gol : Object :=
  { Object.new 3 3 'G' "gol" true with
    alive := true, fighter := some c6GolFighter, ai := some Ai.Basic }

/-- Witness for the amended C6 at a concrete monster: lethal damage clears the
alive and blocks flags and removes the fighter. -/
theorem C6_amended_witness :
    (c6Gol.take_damage 3).alive = false
  ∧ (c6Gol.take_damage 3).blocks = false
  ∧ (c6Gol.take_damage 3).fighter = none := by
  have h := (C6_amended c6Gol c6GolFighter 3 rfl).1 (by decide)
  exact ⟨h.1, (h.2.1 rfl).1, (h.2.1 rfl).2⟩

/-- Fixture for C9: the Win state reached without an Item.Goal held. -/
def c9NoGoal : WinState :=
  { input_action := InputAction.None, state := GameState.Win, level_num := 0,
    inventory := [], item_kind := fun _ => none, msg_log := [] }

/-- Counterexample to C9 as stated: stepping the Win state without a goal item
does not report a user error and continue - step_win panics (embedded as
Except.error) with the expect message. -/
theorem C9_counterexample :
    step_win c9NoGoal = Except.error "Won level without goal!"
  ∧ is_in_inventory c9NoGoal Item.Goal = none :=
  ⟨rfl, rfl⟩

/-- Claim C9 as amended: whenever the Win state is stepped with an input other
than Exit, a missing Item.Goal makes step_win abort with the panic message
"Won level without goal!" (it is not reported-and-continued); with the goal
present, the goal is removed from the inventory, the state returns to Playing,
the level number increments, and the game continues. -/
theorem C9_amended (s : WinState) (hexit : s.input_action ≠ InputAction.Exit) :
    (is_in_inventory s Item.Goal = none →
       step_win s = Except.error "Won level without goal!")
  ∧ ∀ key_id : Nat, is_in_inventory s Item.Goal = some key_id →
      step_win s = Except.ok
        ({ s with msg_log := s.msg_log ++ [Msg.ChangeLevel],
                  inventory := s.inventory.erase key_id,
                  state := GameState.Playing,
                  level_num := s.level_num + 1 }, GameResult.Continue) := by
  constructor
  · intro hnone
    simp only [step_win, if_neg hexit]
    have : is_in_inventory { s with msg_log := s.msg_log ++ [Msg.ChangeLevel] } Item.Goal = none := hnone
    rw [this]
  · intro key_id hsome
    simp only [step_win, if_neg hexit]
    have : is_in_inventory { s with msg_log := s.msg_log ++ [Msg.ChangeLevel] } Item.Goal =
        some key_id := hsome
    rw [this]

/-- Fixture for the C9 witness: the Win state with entity 7 as the goal item. -/
def c9WithGoal : WinState :=
  { input_action := InputAction.None, state := GameState.Win, level_num := 3,
    inventory := [7], item_kind := fun id => if id = 7 then some Item.Goal else none,
    msg_log := [] }

/-- Witness for the amended C9 at a concrete state holding the goal. -/
theorem C9_amended_witness :
    step_win c9WithGoal = Except.ok
      ({ c9WithGoal with
         msg_log := c9WithGoal.msg_log ++ [Msg.ChangeLevel],
         inventory := c9WithGoal.inventory.erase 7,
         state := GameState.Playing,
         level_num := c9WithGoal.level_num + 1 }, GameResult.Continue) :=
  (C9_amended c9WithGoal (by decide)).2 7 rfl

/-- Counterexample to C8 as stated: Horiz(1) allows a distance-1 orthogonal
move (Right yields offset (1, 0)), yet offsets() is empty (the Rust loop
`for dist in 1..dist` excludes the reach distance); likewise Single(2) permits
moves at distance 2 only, and offsets() omits the distance-1 offset (1, 0). -/
theorem C8_counterexample :
    (Reach.Horiz 1).move_with_reach MoveAction.Right = some { x := 1, y := 0 }
  ∧ (Reach.Horiz 1).offsets = []
  ∧ (Reach.Single 2).move_with_reach MoveAction.Right = some { x := 2, y := 0 }
  ∧ ({ x := 1, y := 0 } : Position) ∉ (Reach.Single 2).offsets := by decide

/-- Claim C8 as amended: move_with_reach scales the direction's unit offset by
the reach distance, with Single(n) allowing all eight directions plus Center,
Diag(n) the four diagonals plus Center, and Horiz(n) exactly the four
orthogonal directions (Center excluded); offsets() enumerates for Single(n)
exactly the eight offsets at distance n, and for Horiz(n) and Diag(n) the
orthogonal respectively diagonal offsets at every distance 1..n-1 (the reach
distance itself excluded). -/
theorem C8_amended (n : Nat) (a : MoveAction) (p : Position) :
    ((Reach.Single n).move_with_reach a =
      some { x := (n : Int) * a.into_move.1, y := (n : Int) * a.into_move.2 })
  ∧ ((Reach.Diag n).move_with_reach a =
      if a ∈ [MoveAction.DownLeft, MoveAction.DownRight, MoveAction.UpLeft,
              MoveAction.UpRight, MoveAction.Center] then
        some { x := (n : Int) * a.into_move.1, y := (n : Int) * a.into_move.2 }
      else none)
  ∧ ((Reach.Horiz n).move_with_reach a =
      if a ∈ [MoveAction.Left, MoveAction.Right, MoveAction.Up, MoveAction.Down] then
        some { x := (n : Int) * a.into_move.1, y := (n : Int) * a.into_move.2 }
      else none)
  ∧ ((Reach.Single n).offsets =
      ([(0, (n : Int)), (-(n : Int), (n : Int)), (-(n : Int), 0),
        (-(n : Int), -(n : Int)), (0, -(n : Int)), ((n : Int), -(n : Int)),
        ((n : Int), 0), ((n : Int), (n : Int))] : List (Int × Int)).map
        Position.from_pair)
  ∧ (p ∈ (Reach.Horiz n).offsets ↔ ∃ d : Nat, 1 ≤ d ∧ d < n ∧
      (p = { x := (d : Int), y := 0 } ∨ p = { x := 0, y := (d : Int) } ∨
       p = { x := -(d : Int), y := 0 } ∨ p = { x := 0, y := -(d : Int) }))
  ∧ (p ∈ (Reach.Diag n).offsets ↔ ∃ d : Nat, 1 ≤ d ∧ d < n ∧
      (p = { x := (d : Int), y := (d : Int) } ∨ p = { x := -(d : Int), y := (d : Int) } ∨
       p = { x := (d : Int), y := -(d : Int) } ∨ p = { x := -(d : Int), y := -(d : Int) })) := by
  refine ⟨?_, ?_, ?_, ?_, ?_, ?_⟩
  · cases a <;> simp [Reach.move_with_reach, MoveAction.into_move, Position.from_pair]
  · cases a <;> simp [Reach.move_with_reach, MoveAction.into_move, Position.from_pair]
  · cases a <;> simp [Reach.move_with_reach, MoveAction.into_move, Position.from_pair]
  · simp [Reach.offsets]
  · simp only [Reach.offsets, List.mem_map, List.mem_flatMap, List.mem_range'_1,
      List.mem_cons, List.not_mem_nil, or_false]
    constructor
    · rintro ⟨q, ⟨k, ⟨hk1, hk2⟩, hq⟩, hfp⟩
      refine ⟨k, hk1, by omega, ?_⟩
      rcases hq with h | h | h | h <;> subst h <;> subst hfp <;>
        simp [Position.from_pair, neg_one_mul]
    · rintro ⟨d, hd1, hd2, hp⟩
      rcases hp with h | h | h | h <;> subst h
      · exact ⟨((d : Int), 0), ⟨d, ⟨hd1, by omega⟩, by simp⟩, rfl⟩
      · exact ⟨(0, (d : Int)), ⟨d, ⟨hd1, by omega⟩, by simp⟩, rfl⟩
      · exact ⟨(-1 * (d : Int), 0), ⟨d, ⟨hd1, by omega⟩, by simp⟩, by
          simp [Position.from_pair, neg_one_mul]⟩
      · exact ⟨(0, -1 * (d : Int)), ⟨d, ⟨hd1, by omega⟩, by simp⟩, by
          simp [Position.from_pair, neg_one_mul]⟩
  · simp only [Reach.offsets, List.mem_map, List.mem_flatMap, List.mem_range'_1,
      List.mem_cons, List.not_mem_nil, or_false]
    constructor
    · rintro ⟨q, ⟨k, ⟨hk1, hk2⟩, hq⟩, hfp⟩
      refine ⟨k, hk1, by omega, ?_⟩
      rcases hq with h | h | h | h <;> subst h <;> subst hfp <;>
        simp [Position.from_pair, neg_one_mul]
    · rintro ⟨d, hd1, hd2, hp⟩
      rcases hp with h | h | h | h <;> subst h
      · exact ⟨((d : Int), (d : Int)), ⟨d, ⟨hd1, by omega⟩, by simp⟩, rfl⟩
      · exact ⟨(-1 * (d : Int), (d : Int)), ⟨d, ⟨hd1, by omega⟩, by simp⟩, by
          simp [Position.from_pair, neg_one_mul]⟩
      · exact ⟨((d : Int), -1 * (d : Int)), ⟨d, ⟨hd1, by omega⟩, by simp⟩, by
          simp [Position.from_pair, neg_one_mul]⟩
      · exact ⟨(-1 * (d : Int), -1 * (d : Int)), ⟨d, ⟨hd1, by omega⟩, by simp⟩, by
          simp [Position.from_pair, neg_one_mul]⟩

/-- Fixture for C4: an empty 10 x 10 map with no walls. -/
def c4Map : Map :=
  { width := 10, height := 10,
    tiles := fun _ _ => { blocked := false, block_sight := false },
    is_blocked_by_wall := fun _ _ _ _ => false }

/-- Fixture for the C4 counterexample: a player with momentum (1, 0), so the
move right raises the magnitude from 1 to 2. -/
def c4PlayerCE : Object :=
  { Object.new 0 0 '@' "player" true with
    alive := true,
    momentum := some { mx := 1, my := 0, took_half_turn := false, max := 2 },
    movement := some (Reach.Single 1) }

/-- Counterexample to C4 as stated: moving right from momentum (1, 0) yields a
resulting momentum magnitude of 2 > 1 with took_half_turn not previously set,
yet the returned action is TookTurn - the code tests the momentum magnitude
copied before the move update, which is 1. -/
theorem C4_counterexample :
    (player_move_or_attack MoveAction.Right c4Map [c4PlayerCE]).2 = PlayerAction.TookTurn
  ∧ (((player_move_or_attack MoveAction.Right c4Map [c4PlayerCE]).1.getD PLAYER
        default).momentum.getD Momentum.default).magnitude > 1
  ∧ (c4PlayerCE.momentum.getD Momentum.default).took_half_turn = false := by decide

/-- Claim C4 as amended: for a player Move or JumpWall movement, the returned
action is TookHalfTurn exactly when the momentum magnitude BEFORE the move
update exceeds 1 and took_half_turn was not already set; the stored momentum
becomes the moved momentum with took_half_turn recording whether a half turn
was taken. -/
theorem C4_amended (map : Map) (objects : List Object) (action : MoveAction)
    (reach : Reach) (m : Momentum) (x y : Int)
    (hreach : (objects.getD PLAYER default).movement = some reach)
    (hmom : (objects.getD PLAYER default).momentum = some m)
    (hmove : calculate_move action reach PLAYER objects map = some (Movement.Move x y) ∨
             calculate_move action reach PLAYER objects map = some (Movement.JumpWall x y)) :
    (player_move_or_attack action map objects).2 =
      (if m.magnitude > 1 ∧ m.took_half_turn = false then PlayerAction.TookHalfTurn
       else PlayerAction.TookTurn)
  ∧ ((player_move_or_attack action map objects).1.getD PLAYER default).momentum =
      some { m.moved (x - (objects.getD PLAYER default).x)
                     (y - (objects.getD PLAYER default).y) with
             took_half_turn := decide (m.magnitude > 1 ∧ m.took_half_turn = false) } := by
  cases objects with
  | nil =>
    rw [show (([] : List Object).getD PLAYER default).momentum = none from rfl] at hmom
    simp at hmom
  | cons po rest =>
    have hpo : (po :: rest).getD PLAYER default = po := rfl
    rw [hpo] at hreach hmom
    rcases hmove with hmv | hmv <;>
      (simp only [PLAYER] at hmv;
       simp only [player_move_or_attack, PLAYER, hpo, List.getD_cons_zero, hreach,
         Option.getD_some, hmv, List.set_cons_zero, hmom, Option.map_some'];
       by_cases h1 : m.magnitude > 1 <;> by_cases h2 : m.took_half_turn <;>
         simp [h1, h2])

/-- Fixture for the C4 witness: a player already at momentum (2, 0). -/
def c4PlayerW : Object :=
  { Object.new 0 0 '@' "player" true with
    alive := true,
    momentum := some { mx := 2, my := 0, took_half_turn := false, max := 2 },
    movement := some (Reach.Single 1) }

/-- Witness for the amended C4 at a concrete input: with pre-move magnitude 2
and no half turn consumed yet, the move is a half turn. -/
theorem C4_amended_witness :
    (player_move_or_attack MoveAction.Right c4Map [c4PlayerW]).2 =
      PlayerAction.TookHalfTurn := by
  have h := C4_amended c4Map [c4PlayerW] MoveAction.Right (Reach.Single 1)
    { mx := 2, my := 0, took_half_turn := false, max := 2 } 1 0 rfl rfl
    (Or.inl (by decide))
  rw [h.1]; decide

end Roguelike
